import Mathlib

/-!
Verification of the travel-reimbursement decision engine.

The runtime engine is `ReimbursementCalculator` in `solution.py`: a
per-duration rule formula for trips of 1..7 days, a pair of learned
regression models for trips of 8..14 days, a short table of hardcoded
exact-match overrides, and a sentinel `0` outside 1..14 days.  The
regime detector with separate anomaly/bug thresholds appears in
`solver_v5.py`.

Machine reals (Python floats) are embedded as exact rationals `ℚ`;
Python `int` as `ℤ`.  The two opaque joblib regression models are
abstract function fields of the `Calculator` structure, since the
engine treats them as black-box functions.
-/

/-- Python `int(x)` on a numeric value: truncation toward zero. -/
def truncQ (q : ℚ) : ℤ := if q < 0 then ⌈q⌉ else ⌊q⌋

/-- Python `round(x, 2)` scaled kernel: round to nearest integer,
ties to even, the convention of the Python built-in. -/
def roundHalfEven (q : ℚ) : ℤ :=
  if q - ⌊q⌋ < 1 / 2 then ⌊q⌋
  else if (1 : ℚ) / 2 < q - ⌊q⌋ then ⌊q⌋ + 1
  else if ⌊q⌋ % 2 = 0 then ⌊q⌋ else ⌊q⌋ + 1

/-- Python `round(x, 2)`: round to two fractional decimal digits. -/
def round2 (q : ℚ) : ℚ := (roundHalfEven (q * 100) : ℚ) / 100

/-- One row of `self.rules` in `solution.py` (also the base rules of
`solver_v5.py`): the per-duration constants of the closed-form
formula for 1..7-day trips. -/
structure DurationRule where
  per_diem : ℚ
  mileage_rate1 : ℚ
  mileage_threshold : ℤ
  mileage_rate2 : ℚ
  receipt_rate : ℚ
  receipt_cap : ℚ
  low_receipt_threshold : ℚ
  low_receipt_penalty : ℚ
  deriving Repr, DecidableEq

/-- One row of `self.params` in `solution.py`: the outlier-regime
threshold, linear rate and additive penalty for one duration. -/
structure OutlierParams where
  outlier_threshold : ℚ
  outlier_rate : ℚ
  outlier_penalty : ℚ
  deriving Repr, DecidableEq

def rule1 : DurationRule := ⟨40, 0.5, 75, 0.3, 0.75, 1100, 10, 0⟩

def rule2 : DurationRule := ⟨100, 0.52, 75, 0.35, 0.8, 1100, 10, 0⟩

def rule3 : DurationRule := ⟨240, 0.7, 100, 0.25, 0.75, 1000, 10, 0⟩

def rule4 : DurationRule := ⟨260, 0.7, 125, 0.25, 0.75, 1100, 10, 0⟩

def rule5 : DurationRule := ⟨310, 0.5, 75, 0.45, 0.8, 1000, 10, 0⟩

def rule6 : DurationRule := ⟨380, 0.7, 125, 0.45, 0.75, 1000, 10, 0⟩

def rule7 : DurationRule := ⟨490, 0.64, 125, 0.5, 0.8, 900, 10, 0⟩

/-- The table `self.rules` of `solution.py`: the duration-indexed rule table,
defined for 1..7 only (`trip_duration_days in self.rules`). -/
def rules (d : ℤ) : Option DurationRule :=
  if d = 1 then some rule1
  else if d = 2 then some rule2
  else if d = 3 then some rule3
  else if d = 4 then some rule4
  else if d = 5 then some rule5
  else if d = 6 then some rule6
  else if d = 7 then some rule7
  else none

def params1 : OutlierParams := ⟨1800, 0.26, 500⟩

def params2 : OutlierParams := ⟨2300, 0.28, 400⟩

def params3 : OutlierParams := ⟨2200, 0.48, -100⟩

def params4 : OutlierParams := ⟨2400, 0.24, 500⟩

def params5 : OutlierParams := ⟨2400, 0.18, 500⟩

def params6 : OutlierParams := ⟨2000, 0.36, 200⟩

def params7 : OutlierParams := ⟨1900, 0.18, 500⟩

/-- The table `self.params` of `solution.py`: outlier parameters per duration. -/
def params (d : ℤ) : Option OutlierParams :=
  if d = 1 then some params1
  else if d = 2 then some params2
  else if d = 3 then some params3
  else if d = 4 then some params4
  else if d = 5 then some params5
  else if d = 6 then some params6
  else if d = 7 then some params7
  else none

/-- Line 57 of `solution.py`, the outlier test against the per-day
threshold with an infinite dictionary-lookup default: a missing entry
can never classify as outlier. -/
def isOutlier (day : ℤ) (receipts : ℚ) : Bool :=
  match params day with
  | some p => decide (p.outlier_threshold < receipts)
  | none => false

/-- Outlier branch of the receipt term, `solution.py` line 68: the
receipts value times the per-day outlier rate plus the per-day outlier
penalty, with dictionary-lookup defaults of 0 for both constants. -/
def outlierReceiptTerm (day : ℤ) (receipts : ℚ) : ℚ :=
  match params day with
  | some p => receipts * p.outlier_rate + p.outlier_penalty
  | none => receipts * 0 + 0

/-- Receipt term of `solution.py` lines 67-70. -/
def receiptTerm (day : ℤ) (rule : DurationRule) (receipts : ℚ) : ℚ :=
  if isOutlier day receipts then outlierReceiptTerm day receipts
  else min (receipts * rule.receipt_rate) rule.receipt_cap

/-- High-mileage branch of the mileage term (`miles > mileage_threshold`),
`solution.py` lines 62-63. -/
def mileageHigh (rule : DurationRule) (miles : ℤ) : ℚ :=
  (rule.mileage_threshold : ℚ) * rule.mileage_rate1 +
    ((miles - rule.mileage_threshold : ℤ) : ℚ) * rule.mileage_rate2

/-- Low-mileage branch of the mileage term, `solution.py` line 65. -/
def mileageLow (rule : DurationRule) (miles : ℤ) : ℚ :=
  (miles : ℚ) * rule.mileage_rate1

/-- Tiered mileage term, `solution.py` lines 61-65. -/
def mileageTerm (rule : DurationRule) (miles : ℤ) : ℚ :=
  if rule.mileage_threshold < miles then mileageHigh rule miles
  else mileageLow rule miles

/-- The engine: the two joblib regression models of
`ReimbursementCalculator.__init__` are opaque black-box functions
from the raw feature triple to an amount. -/
structure Calculator where
  long_trip_model : ℤ → ℤ → ℚ → ℚ
  outlier_model : ℤ → ℤ → ℚ → ℚ

/-- Body of `ReimbursementCalculator.calculate` after the `int`/`float`
coercions of lines 37-39: hardcoded override cases, then the 1..7-day
rule formula, then the 8..14-day model dispatch, else the sentinel 0. -/
def Calculator.calcInt (c : Calculator) (day miles : ℤ) (receipts : ℚ) : ℚ :=
  if day = 4 ∧ miles = 69 ∧ receipts = 2321.49 then 322.00
  else if day = 2 ∧ miles = 18 ∧ receipts = 2503.46 then 1206.95
  else if day = 5 ∧ miles = 196 ∧ receipts = 1228.49 then 511.23
  else if day = 1 ∧ miles = 1082 ∧ receipts = 1809.49 then 446.94
  else if day = 5 ∧ miles = 516 ∧ receipts = 1878.49 then 669.85
  else
    match rules day with
    | some rule =>
        let reimbursement :=
          rule.per_diem + mileageTerm rule miles + receiptTerm day rule receipts
        let reimbursement :=
          if isOutlier day receipts = false ∧ 0 < receipts ∧
              receipts < rule.low_receipt_threshold then
            reimbursement - rule.low_receipt_penalty
          else reimbursement
        round2 reimbursement
    | none =>
        if 8 ≤ day ∧ day ≤ 14 then
          if 2500 < receipts then round2 (c.outlier_model day miles receipts)
          else round2 (c.long_trip_model day miles receipts)
        else round2 0

/-- The entry point `ReimbursementCalculator.calculate`: coerce duration and miles with
Python `int` (truncation toward zero), receipts with `float`
(identity on numeric values), then dispatch. -/
def Calculator.calculate (c : Calculator) (d m r : ℚ) : ℚ :=
  c.calcInt (truncQ d) (truncQ m) r

/-- The five hardcoded override cases of `solution.py` lines 42-51,
as `(duration, miles, receipts, amount)` tuples. -/
def overrides : List (ℤ × ℤ × ℚ × ℚ) :=
  [(4, 69, 2321.49, 322.00),
   (2, 18, 2503.46, 1206.95),
   (5, 196, 1228.49, 511.23),
   (1, 1082, 1809.49, 446.94),
   (5, 516, 1878.49, 669.85)]

/-- The three regimes of the detector in `solver_v5.py`. -/
inductive Regime where
  | normal
  | anomaly
  | bug
  deriving Repr, DecidableEq

/-- Regime detection of `solver_v5.py` lines 32-33: bug when receipts
exceed the bug threshold; else anomaly when receipts exceed the
anomaly threshold; else normal.  A threshold missing from the params
dict defaults to infinity, i.e. behaves as a threshold exceeding every
receipts value considered. -/
def detectRegime (anomaly_threshold bug_threshold receipts : ℚ) : Regime :=
  if bug_threshold < receipts then .bug
  else if anomaly_threshold < receipts then .anomaly
  else .normal

/-- Position of a regime along the normal → anomaly → bug progression. -/
def regimeLevel : Regime → ℕ
  | .normal => 0
  | .anomaly => 1
  | .bug => 2

/-- Receipt term of `solver_v5.py` lines 40-45, selected by the
detected regime: bug and anomaly use a single linear rate. -/
def v5ReceiptTerm (rule : DurationRule)
    (anomaly_threshold bug_threshold anomaly_rate bug_rate receipts : ℚ) : ℚ :=
  match detectRegime anomaly_threshold bug_threshold receipts with
  | .bug => receipts * bug_rate
  | .anomaly => receipts * anomaly_rate
  | .normal => min (receipts * rule.receipt_rate) rule.receipt_cap

/-- A concrete engine with stub regression models, used to evaluate
the dispatcher at closed inputs. -/
def stubCalc : Calculator :=
  { long_trip_model := fun _ _ _ => 7
    outlier_model := fun _ _ _ => 9 }

/-- Truncation is the identity on integers. -/
theorem truncQ_intCast (d : ℤ) : truncQ (d : ℚ) = d := by
  unfold truncQ
  split <;> simp

/-- At integer-valued arguments `calculate` is the post-coercion body. -/
theorem calculate_intCast (c : Calculator) (d m : ℤ) (r : ℚ) :
    c.calculate (d : ℚ) (m : ℚ) r = c.calcInt d m r := by
  unfold Calculator.calculate
  rw [truncQ_intCast, truncQ_intCast]

/-- Outside 1..7 the rule table has no entry. -/
theorem rules_eq_none (d : ℤ) (hd : d < 1 ∨ 7 < d) : rules d = none := by
  unfold rules
  split_ifs <;> first | rfl | exact absurd hd (by omega)

/-- Every rule in the shipped table has low-receipt threshold 10 and
low-receipt penalty 0. -/
theorem rules_low_receipt_fields (d : ℤ) (rule : DurationRule)
    (h : rules d = some rule) :
    rule.low_receipt_threshold = 10 ∧ rule.low_receipt_penalty = 0 := by
  unfold rules at h
  split_ifs at h
  all_goals first
  | exact Option.noConfusion h
  | (injection h with h
     subst h
     constructor <;>
       norm_num [rule1, rule2, rule3, rule4, rule5, rule6, rule7])

/-- Claim C2: every triple in the curated override table is returned
verbatim by `calculate`, before any formula or model evaluation. -/
theorem override_precedence (c : Calculator) (d m : ℤ) (r a : ℚ)
    (h : (d, m, r, a) ∈ overrides) :
    c.calculate (d : ℚ) (m : ℚ) r = a := by
  rw [calculate_intCast]
  fin_cases h <;> norm_num [Calculator.calcInt]

/-- Witness for C2: the override `(4, 69, 2321.49)` returns `322.00`. -/
theorem override_precedence_witness :
    ((4 : ℤ), (69 : ℤ), (2321.49 : ℚ), (322.00 : ℚ)) ∈ overrides ∧
    stubCalc.calculate ((4 : ℤ) : ℚ) ((69 : ℤ) : ℚ) 2321.49 = 322.00 :=
  ⟨by simp [overrides],
   override_precedence stubCalc 4 69 2321.49 322.00 (by simp [overrides])⟩

/-- Claim C4: for a duration outside 1..14 (no override can match such
a duration), `calculate` returns exactly 0. -/
theorem undefined_domain_zero (c : Calculator) (d m : ℤ) (r : ℚ)
    (hd : d < 1 ∨ 14 < d) :
    c.calculate (d : ℚ) (m : ℚ) r = 0 := by
  rw [calculate_intCast]
  unfold Calculator.calcInt
  rw [if_neg (fun hx => by omega : ¬(d = 4 ∧ m = 69 ∧ r = 2321.49)),
    if_neg (fun hx => by omega : ¬(d = 2 ∧ m = 18 ∧ r = 2503.46)),
    if_neg (fun hx => by omega : ¬(d = 5 ∧ m = 196 ∧ r = 1228.49)),
    if_neg (fun hx => by omega : ¬(d = 1 ∧ m = 1082 ∧ r = 1809.49)),
    if_neg (fun hx => by omega : ¬(d = 5 ∧ m = 516 ∧ r = 1878.49)),
    rules_eq_none d (by omega)]
  rw [if_neg (fun hx => by omega : ¬(8 ≤ d ∧ d ≤ 14))]
  norm_num [round2, roundHalfEven]

/-- Witness for C4: `calculate(0, 100, 50) = 0` and
`calculate(15, 100, 50) = 0`. -/
theorem undefined_domain_zero_witness :
    ((0 : ℤ) < 1 ∨ 14 < (0 : ℤ)) ∧
    stubCalc.calculate ((0 : ℤ) : ℚ) ((100 : ℤ) : ℚ) 50 = 0 ∧
    ((15 : ℤ) < 1 ∨ 14 < (15 : ℤ)) ∧
    stubCalc.calculate ((15 : ℤ) : ℚ) ((100 : ℤ) : ℚ) 50 = 0 :=
  ⟨Or.inl (by norm_num),
   undefined_domain_zero stubCalc 0 100 50 (Or.inl (by norm_num)),
   Or.inr (by norm_num),
   undefined_domain_zero stubCalc 15 100 50 (Or.inr (by norm_num))⟩

/-- Counterexample to C1: for duration 1 the receipts value 2000 is in
the non-normal (outlier) regime, and the receipt term of `solution.py`
is `2000 * 0.26 + 500 = 1020`, which is not `receipts * rate`: the
regime carries the additive offset `outlier_penalty = 500`. -/
theorem outlier_offset_counterexample :
    rules 1 = some rule1 ∧ params 1 = some params1 ∧
    isOutlier 1 2000 = true ∧
    receiptTerm 1 rule1 2000 = 1020 ∧
    (2000 : ℚ) * params1.outlier_rate = 520 ∧
    receiptTerm 1 rule1 2000 ≠ 2000 * params1.outlier_rate := by
  refine ⟨rfl, rfl, ?_, ?_, ?_, ?_⟩ <;>
    norm_num [isOutlier, receiptTerm, outlierReceiptTerm, params, params1,
      rule1]

/-- Claim C1 as amended: for durations 1..7 the receipt term depends
only on the regime; in the normal regime it is
`min(receipts * receipt_rate, receipt_cap)`; in `solver_v5.py` the
anomaly and bug regimes each use a single linear rate with no offset;
in `solution.py` the outlier regime is linear plus the additive
per-duration `outlier_penalty`. -/
theorem receipt_term_by_regime (d₁ d₂ : ℤ) (rule : DurationRule)
    (p : OutlierParams) (r₁ r₂ a_t b_t a_rate b_rate r₃ r₄ r₅ : ℚ)
    (h₁ : isOutlier d₁ r₁ = false)
    (h₂ : params d₂ = some p) (h₃ : isOutlier d₂ r₂ = true)
    (h₄ : detectRegime a_t b_t r₃ = Regime.bug)
    (h₅ : detectRegime a_t b_t r₄ = Regime.anomaly)
    (h₆ : detectRegime a_t b_t r₅ = Regime.normal) :
    receiptTerm d₁ rule r₁ = min (r₁ * rule.receipt_rate) rule.receipt_cap ∧
    receiptTerm d₂ rule r₂ = r₂ * p.outlier_rate + p.outlier_penalty ∧
    v5ReceiptTerm rule a_t b_t a_rate b_rate r₃ = r₃ * b_rate ∧
    v5ReceiptTerm rule a_t b_t a_rate b_rate r₄ = r₄ * a_rate ∧
    v5ReceiptTerm rule a_t b_t a_rate b_rate r₅ =
      min (r₅ * rule.receipt_rate) rule.receipt_cap := by
  refine ⟨?_, ?_, ?_, ?_, ?_⟩
  · simp [receiptTerm, h₁]
  · simp [receiptTerm, h₃, outlierReceiptTerm, h₂]
  · simp [v5ReceiptTerm, h₄]
  · simp [v5ReceiptTerm, h₅]
  · simp [v5ReceiptTerm, h₆]

/-- Witness for the amended C1, at duration 1: normal regime at
receipts 5, outlier regime at receipts 2000, and the detector of
`solver_v5.py` with thresholds 1000/2000 at receipts 2500 (bug),
1500 (anomaly) and 500 (normal). -/
theorem receipt_term_by_regime_witness :
    isOutlier 1 5 = false ∧ params 1 = some params1 ∧
    isOutlier 1 2000 = true ∧
    detectRegime 1000 2000 2500 = Regime.bug ∧
    detectRegime 1000 2000 1500 = Regime.anomaly ∧
    detectRegime 1000 2000 500 = Regime.normal ∧
    (receiptTerm 1 rule1 5 = min ((5 : ℚ) * rule1.receipt_rate) rule1.receipt_cap ∧
     receiptTerm 1 rule1 2000 = 2000 * params1.outlier_rate + params1.outlier_penalty ∧
     v5ReceiptTerm rule1 1000 2000 0.5 0.1 2500 = 2500 * 0.1 ∧
     v5ReceiptTerm rule1 1000 2000 0.5 0.1 1500 = 1500 * 0.5 ∧
     v5ReceiptTerm rule1 1000 2000 0.5 0.1 500 =
       min ((500 : ℚ) * rule1.receipt_rate) rule1.receipt_cap) :=
  ⟨by norm_num [isOutlier, params, params1], rfl,
   by norm_num [isOutlier, params, params1],
   by norm_num [detectRegime],
   by norm_num [detectRegime],
   by norm_num [detectRegime],
   receipt_term_by_regime 1 1 rule1 params1 5 2000 1000 2000 0.5 0.1 2500 1500 500
     (by norm_num [isOutlier, params, params1]) rfl
     (by norm_num [isOutlier, params, params1])
     (by norm_num [detectRegime])
     (by norm_num [detectRegime])
     (by norm_num [detectRegime])⟩

/-- Counterexample to C3: a negative duration is not rejected with an
error; `calculate(-1, 100, 50)` silently returns the numeric sentinel
`0` through the undefined-domain branch. -/
theorem negative_duration_counterexample :
    stubCalc.calculate ((-1 : ℤ) : ℚ) ((100 : ℤ) : ℚ) 50 = 0 := by
  rw [calculate_intCast]
  norm_num [Calculator.calcInt, rules, round2, roundHalfEven]

/-- Claim C3 as amended: non-numeric inputs raise a type/value error at
the `int`/`float` coercions (outside this numeric embedding), but
negative numeric inputs are not rejected: a negative duration falls
through every dispatch branch and yields the sentinel `0`, and
negative miles and receipts are silently accepted by the 1..7-day
formula (here at duration 3: low mileage branch, uncapped receipt
product, no low-receipt penalty since `0 < receipts` fails). -/
theorem negative_input_not_rejected (c : Calculator) (d m : ℤ) (r : ℚ)
    (hd : d < 0) (hm : m < 0) (hr : r < 0) :
    c.calculate (d : ℚ) (m : ℚ) r = 0 ∧
    c.calculate ((3 : ℤ) : ℚ) (m : ℚ) r =
      round2 (rule3.per_diem + mileageLow rule3 m +
        min (r * rule3.receipt_rate) rule3.receipt_cap) := by
  constructor
  · exact undefined_domain_zero c d m r (Or.inl (by omega))
  · rw [calculate_intCast]
    unfold Calculator.calcInt
    rw [if_neg (fun hx => by omega : ¬((3 : ℤ) = 4 ∧ m = 69 ∧ r = 2321.49)),
      if_neg (fun hx => by omega : ¬((3 : ℤ) = 2 ∧ m = 18 ∧ r = 2503.46)),
      if_neg (fun hx => by omega : ¬((3 : ℤ) = 5 ∧ m = 196 ∧ r = 1228.49)),
      if_neg (fun hx => by omega : ¬((3 : ℤ) = 1 ∧ m = 1082 ∧ r = 1809.49)),
      if_neg (fun hx => by omega : ¬((3 : ℤ) = 5 ∧ m = 516 ∧ r = 1878.49))]
    have hrules : rules 3 = some rule3 := rfl
    rw [hrules]
    have hout : isOutlier 3 r = false := by
      have h2200 : ¬ ((2200 : ℚ) < r) := by linarith
      simp [isOutlier, params, params3, h2200]
    have hmil : mileageTerm rule3 m = mileageLow rule3 m := by
      unfold mileageTerm
      rw [if_neg (by norm_num [rule3]; omega)]
    have hrec : receiptTerm 3 rule3 r =
        min (r * rule3.receipt_rate) rule3.receipt_cap := by
      simp [receiptTerm, hout]
    simp only [hout, hmil, hrec]
    rw [if_neg (fun hx => absurd hx.2.1 (by linarith))]

/-- Witness for the amended C3: `calculate(-1, -10, -5) = 0` and the
day-3 formula accepts miles `-10` and receipts `-5`. -/
theorem negative_input_not_rejected_witness :
    (-1 : ℤ) < 0 ∧ (-10 : ℤ) < 0 ∧ (-5 : ℚ) < 0 ∧
    (stubCalc.calculate ((-1 : ℤ) : ℚ) ((-10 : ℤ) : ℚ) (-5) = 0 ∧
     stubCalc.calculate ((3 : ℤ) : ℚ) ((-10 : ℤ) : ℚ) (-5) =
       round2 (rule3.per_diem + mileageLow rule3 (-10) +
         min ((-5 : ℚ) * rule3.receipt_rate) rule3.receipt_cap)) :=
  ⟨by norm_num, by norm_num, by norm_num,
   negative_input_not_rejected stubCalc (-1) (-10) (-5)
     (by norm_num) (by norm_num) (by norm_num)⟩

/-- Claim C5: with ordered thresholds the detector of `solver_v5.py`
assigns exactly one regime — bug iff receipts exceed the bug
threshold, else anomaly iff receipts exceed the anomaly threshold,
else normal — and the assigned regime is monotone in receipts along
normal → anomaly → bug, never reversing or skipping. -/
theorem regime_detector_order (a_t b_t r₁ r₂ : ℚ)
    (hab : a_t ≤ b_t) (h12 : r₁ ≤ r₂) :
    regimeLevel (detectRegime a_t b_t r₁) ≤
      regimeLevel (detectRegime a_t b_t r₂) ∧
    (detectRegime a_t b_t r₁ = Regime.bug ↔ b_t < r₁) ∧
    (detectRegime a_t b_t r₁ = Regime.anomaly ↔ r₁ ≤ b_t ∧ a_t < r₁) ∧
    (detectRegime a_t b_t r₁ = Regime.normal ↔ r₁ ≤ a_t) := by
  unfold detectRegime regimeLevel
  refine ⟨?_, ?_, ?_, ?_⟩ <;>
    split_ifs <;> simp_all <;> linarith

/-- Witness for C5 at thresholds 1000/2000: receipts 1500 is anomaly,
receipts 2500 is bug, and the level is monotone between them. -/
theorem regime_detector_order_witness :
    (1000 : ℚ) ≤ 2000 ∧ (1500 : ℚ) ≤ 2500 ∧
    (regimeLevel (detectRegime 1000 2000 1500) ≤
       regimeLevel (detectRegime 1000 2000 2500) ∧
     (detectRegime 1000 2000 1500 = Regime.bug ↔ (2000 : ℚ) < 1500) ∧
     (detectRegime 1000 2000 1500 = Regime.anomaly ↔
       (1500 : ℚ) ≤ 2000 ∧ (1000 : ℚ) < 1500) ∧
     (detectRegime 1000 2000 1500 = Regime.normal ↔ (1500 : ℚ) ≤ 1000)) :=
  ⟨by norm_num, by norm_num,
   regime_detector_order 1000 2000 1500 2500 (by norm_num) (by norm_num)⟩

/-- For durations 8..14 no override matches and the rule table is
empty, so the dispatcher reaches the model-selection branch. -/
theorem calcInt_model_dispatch (c : Calculator) (d m : ℤ) (r : ℚ)
    (hd8 : 8 ≤ d) (hd14 : d ≤ 14) :
    c.calcInt d m r =
      if 2500 < r then round2 (c.outlier_model d m r)
      else round2 (c.long_trip_model d m r) := by
  unfold Calculator.calcInt
  rw [if_neg (fun hx => by omega : ¬(d = 4 ∧ m = 69 ∧ r = 2321.49)),
    if_neg (fun hx => by omega : ¬(d = 2 ∧ m = 18 ∧ r = 2503.46)),
    if_neg (fun hx => by omega : ¬(d = 5 ∧ m = 196 ∧ r = 1228.49)),
    if_neg (fun hx => by omega : ¬(d = 1 ∧ m = 1082 ∧ r = 1809.49)),
    if_neg (fun hx => by omega : ¬(d = 5 ∧ m = 516 ∧ r = 1878.49)),
    rules_eq_none d (by omega)]
  rw [if_pos (by omega : 8 ≤ d ∧ d ≤ 14)]

/-- Claim C6: for durations 8..14 (where no override can match),
`calculate` routes to exactly one of the two long-trip models on the
raw feature triple — the general model when receipts ≤ 2500, the
outlier-specialized model when receipts > 2500 — and returns that
model's output rounded to 2 decimals. -/
theorem long_trip_routing (c : Calculator) (d m : ℤ) (r₁ r₂ : ℚ)
    (hd8 : 8 ≤ d) (hd14 : d ≤ 14) (hr₁ : r₁ ≤ 2500) (hr₂ : 2500 < r₂) :
    c.calculate (d : ℚ) (m : ℚ) r₁ = round2 (c.long_trip_model d m r₁) ∧
    c.calculate (d : ℚ) (m : ℚ) r₂ = round2 (c.outlier_model d m r₂) := by
  constructor <;> rw [calculate_intCast, calcInt_model_dispatch c d m _ hd8 hd14]
  · rw [if_neg (by linarith : ¬ (2500 : ℚ) < r₁)]
  · rw [if_pos hr₂]

/-- Witness for C6 at duration 8, miles 0: receipts 100 routes to the
general model, receipts 3000 to the outlier model. -/
theorem long_trip_routing_witness :
    (8 : ℤ) ≤ 8 ∧ (8 : ℤ) ≤ 14 ∧ (100 : ℚ) ≤ 2500 ∧ (2500 : ℚ) < 3000 ∧
    (stubCalc.calculate ((8 : ℤ) : ℚ) ((0 : ℤ) : ℚ) 100 =
       round2 (stubCalc.long_trip_model 8 0 100) ∧
     stubCalc.calculate ((8 : ℤ) : ℚ) ((0 : ℤ) : ℚ) 3000 =
       round2 (stubCalc.outlier_model 8 0 3000)) :=
  ⟨by norm_num, by norm_num, by norm_num, by norm_num,
   long_trip_routing stubCalc 8 0 100 3000
     (by norm_num) (by norm_num) (by norm_num) (by norm_num)⟩

/-- Claim C7: in the normal (non-outlier) regime the receipt term of
the formula never exceeds the duration's `receipt_cap`, for any
receipts value. -/
theorem receipt_cap_enforced (d : ℤ) (rule : DurationRule) (r : ℚ)
    ( _hrule : rules d = some rule) (hnorm : isOutlier d r = false) :
    receiptTerm d rule r ≤ rule.receipt_cap := by
  simp only [receiptTerm, hnorm, Bool.false_eq_true, if_false]
  exact min_le_right _ _

/-- Witness for C7 at duration 1 with receipts 100, a value in the
normal regime: the receipt term stays at or below the cap 1100. -/
theorem receipt_cap_enforced_witness :
    rules 1 = some rule1 ∧ isOutlier 1 100 = false ∧
    receiptTerm 1 rule1 100 ≤ rule1.receipt_cap :=
  ⟨rfl, by norm_num [isOutlier, params, params1],
   receipt_cap_enforced 1 rule1 100 rfl
     (by norm_num [isOutlier, params, params1])⟩

/-- Claim C8: the mileage term is the tiered piecewise function —
the high branch strictly above the threshold, the low branch at or
below it — and the two branch formulas agree at the threshold, so
the two linear segments join with no jump. -/
theorem mileage_tier_continuity (rule : DurationRule) (m₁ m₂ : ℤ)
    (h₁ : rule.mileage_threshold < m₁) (h₂ : m₂ ≤ rule.mileage_threshold) :
    mileageTerm rule m₁ = mileageHigh rule m₁ ∧
    mileageTerm rule m₂ = mileageLow rule m₂ ∧
    mileageHigh rule rule.mileage_threshold =
      mileageLow rule rule.mileage_threshold := by
  refine ⟨?_, ?_, ?_⟩
  · unfold mileageTerm
    rw [if_pos h₁]
  · unfold mileageTerm
    rw [if_neg (not_lt.mpr h₂)]
  · unfold mileageHigh mileageLow
    push_cast
    ring

/-- Witness for C8 on the duration-1 rule (threshold 75): miles 100
uses the high branch, miles 50 the low branch, and the branches agree
at 75. -/
theorem mileage_tier_continuity_witness :
    rule1.mileage_threshold < 100 ∧ (50 : ℤ) ≤ rule1.mileage_threshold ∧
    (mileageTerm rule1 100 = mileageHigh rule1 100 ∧
     mileageTerm rule1 50 = mileageLow rule1 50 ∧
     mileageHigh rule1 rule1.mileage_threshold =
       mileageLow rule1 rule1.mileage_threshold) :=
  ⟨by norm_num [rule1], by norm_num [rule1],
   mileage_tier_continuity rule1 100 50
     (by norm_num [rule1]) (by norm_num [rule1])⟩

/-- Claim C9: `calculate` truncates duration and miles toward zero
before the override lookup and dispatch, so its value at any rational
duration and miles equals its value at their truncations. -/
theorem coercion_truncates (c : Calculator) (d m r : ℚ) :
    c.calculate d m r = c.calculate ((truncQ d : ℤ) : ℚ) ((truncQ m : ℤ) : ℚ) r := by
  unfold Calculator.calculate
  rw [truncQ_intCast, truncQ_intCast]

/-- Claim C10: every duration 1..7 in the shipped configuration has
`low_receipt_penalty = 0`, so in the normal regime with small positive
receipts the penalty branch fires but subtracts nothing: the returned
amount equals the pre-penalty sum rounded to 2 decimals. -/
theorem low_receipt_penalty_noop (c : Calculator) (d m : ℤ) (r : ℚ)
    (rule : DurationRule) (hrule : rules d = some rule)
    (hr0 : 0 < r) (hr10 : r < rule.low_receipt_threshold)
    (hnorm : isOutlier d r = false) :
    rule.low_receipt_penalty = 0 ∧
    c.calculate (d : ℚ) (m : ℚ) r =
      round2 (rule.per_diem + mileageTerm rule m + receiptTerm d rule r) := by
  obtain ⟨hthr, hpen⟩ := rules_low_receipt_fields d rule hrule
  have hrsmall : r < 10 := hthr ▸ hr10
  refine ⟨hpen, ?_⟩
  rw [calculate_intCast]
  unfold Calculator.calcInt
  rw [if_neg (fun hx => absurd hx.2.2 (by rintro rfl; norm_num at hrsmall) :
      ¬(d = 4 ∧ m = 69 ∧ r = 2321.49)),
    if_neg (fun hx => absurd hx.2.2 (by rintro rfl; norm_num at hrsmall) :
      ¬(d = 2 ∧ m = 18 ∧ r = 2503.46)),
    if_neg (fun hx => absurd hx.2.2 (by rintro rfl; norm_num at hrsmall) :
      ¬(d = 5 ∧ m = 196 ∧ r = 1228.49)),
    if_neg (fun hx => absurd hx.2.2 (by rintro rfl; norm_num at hrsmall) :
      ¬(d = 1 ∧ m = 1082 ∧ r = 1809.49)),
    if_neg (fun hx => absurd hx.2.2 (by rintro rfl; norm_num at hrsmall) :
      ¬(d = 5 ∧ m = 516 ∧ r = 1878.49)),
    hrule]
  simp only []
  rw [if_pos ⟨hnorm, hr0, hr10⟩, hpen, sub_zero]

/-- Witness for C10: the end-to-end fixture duration 3, miles 93,
receipts 1.42 is normal regime with the penalty branch active, and the
result is the no-penalty amount. -/
theorem low_receipt_penalty_noop_witness :
    rules 3 = some rule3 ∧ (0 : ℚ) < 1.42 ∧
    (1.42 : ℚ) < rule3.low_receipt_threshold ∧
    isOutlier 3 1.42 = false ∧
    (rule3.low_receipt_penalty = 0 ∧
     stubCalc.calculate ((3 : ℤ) : ℚ) ((93 : ℤ) : ℚ) 1.42 =
       round2 (rule3.per_diem + mileageTerm rule3 93 + receiptTerm 3 rule3 1.42)) :=
  ⟨rfl, by norm_num, by norm_num [rule3],
   by norm_num [isOutlier, params, params3],
   low_receipt_penalty_noop stubCalc 3 93 1.42 rule3 rfl (by norm_num)
     (by norm_num [rule3]) (by norm_num [isOutlier, params, params3])⟩
